import Mathlib

/-!
Shallow embedding of the nmc-box backend (src/backend/api.py) and the
offline embedding script (src/scripts/embeddings.py).

External services (Firebase document store, Elasticsearch, Airtable,
SendGrid, the identity provider) are modelled explicitly:
* a Firebase collection is an association list from document id to document;
* a read or write against the store either succeeds or raises an exception,
  which we model with an explicit outcome parameter (`rres` for reads,
  `wres` for writes; `none` means the call succeeded);
* `utils.get_user_info` (the identity-token check, in utils.py which is not
  part of src/) is modelled by passing its result (`Option UserInfo`)
  directly to each handler: `none` for a missing/invalid token.
Python exceptions are modelled with `Except Exc`; a handler that can raise
returns `Except Exc Resp` and `.error e` means the exception `e` propagates
out of the handler uncaught.
-/

/-- Python exception classes that appear in (or can escape from) the code. -/
inductive Exc where
  | notFound
  | typeError
  | keyError
  | attributeError
  | valueError
  | zeroDivisionError
  | other (n : Nat)
deriving DecidableEq

/-- JSON values, the payloads moved between the handlers and the stores. -/
inductive Json where
  | null
  | str (s : String)
  | num (n : Int)
  | bool (b : Bool)
  | arr (xs : List Json)
  | obj (fields : List (String × Json))

/-- Result of `utils.get_user_info`: the decoded identity token.
Modelled from the spec: utils.get_user_info (not under src/) extracts the
user identity from the opaque bearer credential, returning `None` for a
missing or invalid credential. Python `dict.get` can itself return `None`,
hence the `Option` fields. -/
structure UserInfo where
  user_id : Option String := none
  email : Option String := none

/-- An HTTP response: status code plus optional JSON body.  A Python handler
that returns `None`, or a `JSONResponse(status_code=...)` without content,
produces a response whose body is `none` (rendered as JSON `null`). -/
structure Resp where
  status : Nat
  body : Option Json

/-- A Firebase collection: documents keyed by id.
Modelled from the spec: the external key-value store holds one unstructured
document per id, stored verbatim (utils.get_data / set_data / update_data
are in utils.py, which is not under src/). -/
def Store (α : Type) : Type := List (String × α)

/-- The user-profile collection holds arbitrary JSON documents. -/
def ProfStore : Type := Store Json

/-- A preference document maps a conference edition to the list of liked
submission ids. -/
def PrefDoc : Type := List (String × List String)

/-- The preference collection. -/
def PrefStore : Type := Store PrefDoc

/-- Write document `v` under key `k`, replacing any existing document. -/
def setKey {α : Type} (store : Store α) (k : String) (v : α) : Store α :=
  match store with
  | [] => [(k, v)]
  | (k', v') :: rest => if k' = k then (k, v) :: rest else (k', v') :: setKey rest k v

/-- Modelled from the spec: utils.get_data reads the document stored under
an id, returning `None` when absent; the call against the external store can
raise, which the outcome parameter `rres` makes explicit (`none` = success). -/
def get_data {α : Type} (uid : Option String) (store : Store α) (rres : Option Exc) :
    Except Exc (Option α) :=
  match rres with
  | some e => .error e
  | none =>
    match uid with
    | none => .ok none
    | some u => .ok (List.lookup u store)

/-- query_params_builder from src/backend/api.py: append key=value pairs to
a base endpoint, skipping pairs whose value is None, choosing the separator
by whether the accumulated endpoint already contains a question mark. -/
def query_params_builder (base_endpoint : String)
    (kvs : Option (List (String × Option String))) : String :=
  match kvs with
  | none => base_endpoint
  | some l =>
    l.foldl
      (fun acc kv =>
        match kv.2 with
        | none => acc
        | some v => acc ++ (if acc.contains '?' then "&" else "?") ++ kv.1 ++ "=" ++ v)
      base_endpoint

/-- preprocess from src/scripts/embeddings.py: lowercase the text. -/
def preprocess (text : String) : String := text.toLower

/-- calculate_embeddings from src/scripts/embeddings.py.
`encode` stands for the pretrained sentence-embedding model; `lsa_fit`
stands for the TF-IDF + truncated-SVD pipeline applied to a nonempty corpus
(both are external library calls whose numeric output the claims do not
depend on; vectors are abstracted to integer lists).
Modelled from the spec: the sklearn TF-IDF/SVD fit, which is not part of
src/, aborts on an empty table ("The embedding script has no error
handling: malformed input files or empty tables abort the run"); we model
that abort as a raised ValueError.  An unrecognized option prints a message
and returns None. -/
def calculate_embeddings (encode : List String → List (List Int))
    (lsa_fit : List String → List (List Int))
    (df : List (String × String × String)) (opt : String) :
    Except Exc (Option (List (String × List Int))) :=
  if opt = "sent_embed" then
    let papers := df.map (fun r => r.2.1 ++ "[SEP]" ++ r.2.2)
    let embeddings := encode papers
    .ok (some (List.zipWith (fun r e => (r.1, e)) df embeddings))
  else if opt = "lsa" then
    let papers := df.map (fun r => preprocess (r.2.1 ++ " " ++ r.2.2))
    if papers.isEmpty then .error .valueError
    else .ok (some (List.zipWith (fun r e => (r.1, e)) df (lsa_fit papers)))
  else
    .ok none

/-- get_affiliations (GET /api/affiliation): wrap the Elasticsearch
affiliation query in a data envelope; with no query string the result list
is empty.  `results` stands for utils.query_affiliations(q, n_results)
(utils.py is not under src/). -/
def get_affiliations (q : Option String) (n_results : Option Nat)
    (results : List Json) : Resp :=
  let _n := n_results.getD 10
  match q with
  | some _ => ⟨200, some (.obj [("data", .arr results)])⟩
  | none => ⟨200, some (.obj [("data", .arr [])])⟩

/-- send_confirmation_email (POST /api/confirmation).  With the SendGrid key
configured and no valid identity, the code calls `.get` on `None` and raises
AttributeError; otherwise it returns a bodiless response carrying the
SendGrid status code, or Python `None` (a 200 null response) when the key is
not configured. -/
def send_confirmation_email (sendgridSet : Bool) (userInfo : Option UserInfo)
    (sgStatus : Nat) : Except Exc Resp :=
  if sendgridSet then
    match userInfo with
    | none => .error .attributeError
    | some _ => .ok ⟨sgStatus, none⟩
  else .ok ⟨200, none⟩

/-- migrate (POST /api/migration): returns Python None, a 200 null response. -/
def migrate : Resp := ⟨200, none⟩

/-- get_user (GET /api/user): 401 without identity; otherwise read the
profile document, answering an empty object when none is stored. -/
def get_user (userInfo : Option UserInfo) (store : ProfStore) (rres : Option Exc) :
    Except Exc Resp :=
  match userInfo with
  | none => .ok ⟨401, none⟩
  | some ui =>
    match get_data ui.user_id store rres with
    | .error e => .error e
    | .ok (some u) => .ok ⟨200, some (.obj [("data", u)])⟩
    | .ok none => .ok ⟨200, some (.obj [("data", .obj [])])⟩

/-- create_user (POST /api/user): 401 without identity; otherwise store
`user_data["payload"]` verbatim and return Python None (200, null body).
A missing "payload" key raises KeyError; a `None` user id makes the store
write raise (modelled as TypeError); `wres` is the outcome of the store
write. -/
def create_user (userInfo : Option UserInfo) (user_data : List (String × Json))
    (store : ProfStore) (wres : Option Exc) : Except Exc (Resp × ProfStore) :=
  match userInfo with
  | none => .ok (⟨401, none⟩, store)
  | some ui =>
    match List.lookup "payload" user_data with
    | none => .error .keyError
    | some p =>
      match wres with
      | some e => .error e
      | none =>
        match ui.user_id with
        | none => .error .typeError
        | some uid => .ok (⟨200, none⟩, setKey store uid p)

/-- update_user (PUT /api/user): 401 without identity; otherwise store the
given document under the user id (modelled from the spec: the profile
document is stored verbatim) and return Python None (200, null body). -/
def update_user (userInfo : Option UserInfo) (user_data : List (String × Json))
    (store : ProfStore) (wres : Option Exc) : Except Exc (Resp × ProfStore) :=
  match userInfo with
  | none => .ok (⟨401, none⟩, store)
  | some ui =>
    match wres with
    | some e => .error e
    | none =>
      match ui.user_id with
      | none => .error .typeError
      | some uid => .ok (⟨200, none⟩, setKey store uid (.obj user_data))

/-- get_user_votes (GET /api/user/preference/): 401 without identity;
otherwise list every edition's votes.  `fetchAll` stands for
utils.get_abstract(edition=..., id=...) called, as in the source, with the
whole id list (utils.py is not under src/). -/
def get_user_votes_all (userInfo : Option UserInfo) (store : PrefStore)
    (rres : Option Exc) (fetchAll : String → List String → Json) :
    Except Exc Resp :=
  match userInfo with
  | none => .ok ⟨401, none⟩
  | some ui =>
    match get_data ui.user_id store rres with
    | .error e => .error e
    | .ok (some doc) =>
      .ok ⟨200, some (.obj [("data",
        .arr (doc.map (fun kv =>
          .obj [("edition", .str kv.1), ("abstracts", fetchAll kv.1 kv.2)])))])⟩
    | .ok none => .ok ⟨200, some (.obj [("data", .arr [])])⟩

/-- get_user_votes (GET /api/user/preference/edition): 401 without identity;
with a stored preference document the edition is indexed directly
(`user_preference[edition]`), raising KeyError when absent; with no document
the data field is an empty list.  `fetchOne` stands for utils.get_abstract
per submission id (utils.py is not under src/). -/
def get_user_votes_edition (edition : String) (userInfo : Option UserInfo)
    (store : PrefStore) (rres : Option Exc)
    (fetchOne : String → String → Json) : Except Exc Resp :=
  match userInfo with
  | none => .ok ⟨401, none⟩
  | some ui =>
    match get_data ui.user_id store rres with
    | .error e => .error e
    | .ok (some doc) =>
      match List.lookup edition doc with
      | none => .error .keyError
      | some ids =>
        .ok ⟨200, some (.obj [("data",
          .obj [("edition", .str edition),
                ("abstracts", .arr (ids.map (fetchOne edition)))])])⟩
    | .ok none => .ok ⟨200, some (.obj [("data", .arr [])])⟩

/-- update_user_votes (PATCH /api/user/preference/edition/submission_id).
Faithful to the source: 401 without identity; the preference document is
read first (a read failure propagates); "like" with no document stores
a fresh one, "like" with a document appends `submission_id` and removes
duplicates (Python `list(set(current_pref + [submission_id]))`, modelled by
`List.dedup` of the concatenation, which has the same set of elements);
"dislike" with no document answers 404, and with a document evaluates
`current_pref - [submission_id]` — Python list subtraction, which raises
TypeError outside the try block; any other action (or a `None` user id)
answers 400.  The try blocks catch only google.cloud NotFound and TypeError
from the store write (`wres`), converting them to 404; other write
exceptions propagate.  Successful paths return Python None (200, null). -/
def update_user_votes (edition submission_id : String) (action : Option String)
    (userInfo : Option UserInfo) (store : PrefStore)
    (rres wres : Option Exc) : Except Exc (Resp × PrefStore) :=
  match userInfo with
  | none => .ok (⟨401, none⟩, store)
  | some ui =>
    match get_data ui.user_id store rres with
    | .error e => .error e
    | .ok upref =>
    match action, ui.user_id with
    | some a, some uid =>
      if a = "like" then
        match upref with
        | none =>
          match wres with
          | none => .ok (⟨200, none⟩, setKey store uid [(edition, [submission_id])])
          | some .notFound => .ok (⟨404, none⟩, store)
          | some .typeError => .ok (⟨404, none⟩, store)
          | some e => .error e
        | some doc =>
          match List.lookup edition doc with
          | none => .error .keyError
          | some current_pref =>
            let update_pref := (current_pref ++ [submission_id]).dedup
            match wres with
            | none => .ok (⟨200, none⟩, setKey store uid [(edition, update_pref)])
            | some .notFound => .ok (⟨404, none⟩, store)
            | some .typeError => .ok (⟨404, none⟩, store)
            | some e => .error e
      else if a = "dislike" then
        match upref with
        | none => .ok (⟨404, none⟩, store)
        | some doc =>
          match List.lookup edition doc with
          | none => .error .keyError
          | some _ => .error .typeError
      else .ok (⟨400, none⟩, store)
    | _, _ => .ok (⟨400, none⟩, store)

/-- get_agenda (GET /api/agenda/edition): with a starttime, the agenda
window fetched from Elasticsearch (parameter `agenda` stands for
utils.get_agenda, which is not under src/); otherwise an empty list. -/
def get_agenda (edition : String) (starttime : Option String)
    (agenda : List Json) : Resp :=
  let _ := edition
  match starttime with
  | some _ => ⟨200, some (.obj [("data", .arr agenda)])⟩
  | none => ⟨200, some (.obj [("data", .arr [])])⟩

/-- The preference fetch at the top of get_abstracts.  The source wraps the
whole sequence in a bare `except:` that substitutes an empty list: a missing
identity (AttributeError on `None.get`), a raised store read, a missing
document (again AttributeError) all fall back to `[]`.  Note the source
looks up the literal dictionary key "edition", not the edition parameter. -/
def get_abstracts_preference (userInfo : Option UserInfo) (prefStore : PrefStore)
    (rres : Option Exc) : List String :=
  match userInfo with
  | none => []
  | some ui =>
    match get_data ui.user_id prefStore rres with
    | .error _ => []
    | .ok none => []
    | .ok (some doc) =>
      match List.lookup "edition" doc with
      | some ids => ids
      | none => []

/-- The pagination metadata object built by get_abstracts. -/
def absMeta (current_page n_page : Int) (page_size : Nat) : Json :=
  .obj [("currentPage", .num current_page), ("totalPage", .num n_page),
        ("pageSize", .num page_size)]

/-- A get_abstracts response body: meta, optional links, data.  The early
pagination return carries no links member. -/
def absBody (meta : Json) (links : Option Json) (data : List Json) : Json :=
  match links with
  | none => .obj [("meta", meta), ("data", .arr data)]
  | some l => .obj [("meta", meta), ("links", l), ("data", .arr data)]

/-- The current/next links object built by get_abstracts for a key-value
list of query parameters. -/
def absLinks (edition : String) (kvsCur kvsNext : List (String × Option String)) :
    Json :=
  .obj [("current", .str (query_params_builder ("/api/abstract/" ++ edition) (some kvsCur))),
        ("next", .str (query_params_builder ("/api/abstract/" ++ edition) (some kvsNext)))]

/-- get_abstracts (GET /api/abstract/edition).  Parameters standing for
externals not under src/: `queryHit` for the Elasticsearch match of
utils.query_abstracts, `timeHit` for utils.filter_startend_time, `convert`
for utils.convert_utc, `fetchOne` for utils.get_abstract by id, and
`recs`/`persRecs` for the submission lists produced by
utils.generate_recommendations / generate_personalized_recommendations.
`index` is the content of the agenda-edition Elasticsearch index, so
`n_submissions = index.length` is the es_search.count() of the source.
Python `int(skip / page_size)` is true division followed by truncation,
equal to floor (Nat division) for the nonnegative values modelled here; a
zero page size raises ZeroDivisionError. -/
def get_abstracts (edition : String) (q : Option String) (view : String)
    (starttime endtime : Option String) (skip limit : Nat)
    (userInfo : Option UserInfo) (prefStore : PrefStore) (rres : Option Exc)
    (index : List Json)
    (queryHit : Option String → Json → Bool)
    (timeHit : Option String → Option String → Json → Bool)
    (convert : String → String)
    (fetchOne : String → Json)
    (recs persRecs : List Json) : Except Exc Resp :=
  let user_preference := get_abstracts_preference userInfo prefStore rres
  if limit = 0 then .error .zeroDivisionError else
  let n_submissions := index.length
  let page_size := limit
  let current_page : Nat := skip / page_size + 1
  let n_page : Nat := n_submissions / page_size + 1
  let stet : Option String × Option String :=
    match starttime, endtime with
    | some s, some e => (some (convert s), some (convert e))
    | s, e => (s, e)
  let st := stet.1
  let et := stet.2
  let mld : Json × Option Json × List Json :=
    if current_page > n_page then
      (absMeta current_page n_page page_size, none, [])
    else if view = "default" then
      let submissions := (index.filter (queryHit q)).filter (timeHit st et)
      (absMeta current_page n_page page_size,
        some (absLinks edition
          [("view", some view), ("query", q), ("starttime", st), ("endtime", et),
           ("skip", some (toString skip)), ("limit", some (toString page_size))]
          [("view", some view), ("query", q), ("starttime", st), ("endtime", et),
           ("skip", some (toString (skip + page_size))), ("limit", some (toString page_size))]),
        (submissions.drop skip).take limit)
    else if view = "your-votes" then
      let submissions := user_preference.map fetchOne
      (absMeta current_page (submissions.length / page_size + 1) page_size,
        some (absLinks edition
          [("view", some view), ("skip", some (toString skip)), ("limit", some (toString page_size))]
          [("view", some view), ("skip", some (toString (skip + page_size))), ("limit", some (toString page_size))]),
        if 0 < submissions.length then (submissions.drop skip).take limit else [])
    else if view = "recommendations" then
      let submissions := recs.filter (timeHit st et)
      (absMeta current_page (submissions.length / page_size + 1) page_size,
        some (absLinks edition
          [("view", some view), ("starttime", st), ("endtime", et),
           ("skip", some (toString skip)), ("limit", some (toString page_size))]
          [("view", some view), ("starttime", st), ("endtime", et),
           ("skip", some (toString (skip + page_size))), ("limit", some (toString page_size))]),
        if 0 < submissions.length then (submissions.drop skip).take limit else [])
    else if view = "personalized" then
      let submissions := persRecs.filter (timeHit st et)
      (absMeta current_page (submissions.length / page_size + 1) page_size,
        some (absLinks edition
          [("view", some view), ("starttime", st), ("endtime", et),
           ("skip", some (toString skip)), ("limit", some (toString page_size))]
          [("view", some view), ("starttime", st), ("endtime", et),
           ("skip", some (toString (skip + page_size))), ("limit", some (toString page_size))]),
        if 0 < submissions.length then (submissions.drop skip).take limit else [])
    else
      (absMeta current_page n_page page_size,
        some (absLinks edition
          [("view", some "default"), ("skip", some (toString skip)), ("limit", some (toString page_size))]
          [("view", some "default"), ("skip", some (toString (skip + page_size))), ("limit", some (toString page_size))]),
        [])
  .ok ⟨200, some (absBody mld.1 mld.2.1 mld.2.2)⟩

/-- An abstract submission payload (the pydantic Submission model). -/
structure Submission where
  title : String := ""
  abstract : String := ""
  fullname : String := ""
  coauthors : Option String := none
  institution : Option String := none
  talk_format : Option String := none
  arxiv : Option String := none
  available_dt : Option String := none
  starttime : Option String := none
  endtime : Option String := none
  url : Option String := none
  track : Option String := none

/-- get_abstract (GET /api/abstract/edition/submission_id): fetch one
abstract from Elasticsearch when no Airtable base is configured, else from
the Airtable record's fields; a missing abstract becomes an empty object.
`esFetch` stands for utils.get_abstract, `atRecord` for the Airtable
record. -/
def get_abstract_single (base_id table_name : Option String)
    (submission_id : String) (esFetch : Option Json)
    (atRecord : List (String × Json)) : Resp :=
  let _ := table_name
  let _ := submission_id
  let abstract : Option Json :=
    match base_id with
    | none => esFetch
    | some _ => some ((List.lookup "fields" atRecord).getD (.obj []))
  ⟨200, some (.obj [("data", abstract.getD (.obj []))])⟩

/-- create_abstract (POST /api/abstract/edition): normalize the schedule
times when both are present and nonempty (`convertDt` stands for
pandas.to_datetime), answer 400 when no Airtable base is configured,
otherwise create the record first and only then check identity: 401 without
it, else record the new submission id on the user profile and answer 200.
`newId` is the record id Airtable assigns. -/
def create_abstract (userInfo : Option UserInfo) (base_id table_name : Option String)
    (sub : Submission) (newId : String) (profStore : ProfStore)
    (convertDt : String → String) : Except Exc (Resp × ProfStore) :=
  let _ := table_name
  let sub' :=
    match sub.starttime, sub.endtime with
    | some s, some e =>
      if s ≠ "" ∧ e ≠ "" then
        { sub with starttime := some (convertDt s), endtime := some (convertDt e) }
      else sub
    | _, _ => sub
  let _ := sub'
  match base_id with
  | none => .ok (⟨400, none⟩, profStore)
  | some _ =>
    match userInfo with
    | some ui =>
      match ui.user_id with
      | some uid =>
        .ok (⟨200, none⟩, setKey profStore uid (.obj [("submission_id", .str newId)]))
      | none => .error .typeError
    | none => .ok (⟨401, none⟩, profStore)

/-- update_abstract (PUT /api/abstract/edition/submission_id): answer 400
when no Airtable base is configured for the edition, otherwise update the
record and answer 200.  The handler takes no authorization header and
performs no identity check. -/
def update_abstract (base_id table_name : Option String)
    (submission_id : String) (sub : Submission) : Resp :=
  let _ := table_name
  let _ := submission_id
  let _ := sub
  match base_id with
  | none => ⟨400, none⟩
  | some _ => ⟨200, none⟩

/-- Field lookup on a JSON object. -/
def jLookup (j : Json) (k : String) : Option Json :=
  match j with
  | .obj kvs => List.lookup k kvs
  | _ => none

/-- The data member of a handler result, when the handler returned. -/
def respData (r : Except Exc Resp) : Option Json :=
  match r with
  | .ok resp => resp.body.bind (fun b => jLookup b "data")
  | .error _ => none

/-- The meta.currentPage member of a handler result, when present. -/
def respCurrentPage (r : Except Exc Resp) : Option Json :=
  match r with
  | .ok resp => (resp.body.bind (fun b => jLookup b "meta")).bind (fun m => jLookup m "currentPage")
  | .error _ => none

/-- Whether a response body is a JSON object carrying a data field. -/
def hasData (r : Resp) : Bool :=
  match r.body with
  | some (.obj kvs) => (List.lookup "data" kvs).isSome
  | _ => false

theorem lookup_setKey_self {α : Type} (s : Store α) (k : String) (v : α) :
    List.lookup k (setKey s k v) = some v := by
  induction s with
  | nil => simp [setKey, List.lookup]
  | cons hd tl ih =>
    obtain ⟨k', v'⟩ := hd
    by_cases h : k' = k
    · simp [setKey, h, List.lookup]
    · have hb : (k == k') = false := by
        simp only [beq_eq_false_iff_ne, ne_eq]
        exact Ne.symm h
      simp [setKey, h, List.lookup, ih, hb]

@[simp] theorem jLookup_absBody_meta (m : Json) (l : Option Json) (d : List Json) :
    jLookup (absBody m l d) "meta" = some m := by
  cases l <;> rfl

@[simp] theorem jLookup_absBody_data (m : Json) (l : Option Json) (d : List Json) :
    jLookup (absBody m l d) "data" = some (.arr d) := by
  cases l <;> rfl

@[simp] theorem jLookup_absMeta_currentPage (c n : Int) (p : Nat) :
    jLookup (absMeta c n p) "currentPage" = some (.num c) := rfl

theorem hasData_absBody (m : Json) (l : Option Json) (d : List Json) :
    hasData ⟨200, some (absBody m l d)⟩ = true := by
  cases l <;> rfl

/-- C8: query_params_builder appends exactly the pairs whose value is
present, in the order given, choosing "?" as separator when the accumulated
endpoint contains no question mark and "&" otherwise; when kvs is absent, or
every value in it is absent, the base endpoint is returned unchanged. -/
theorem query_params_builder_spec :
    (∀ base, query_params_builder base none = base) ∧
    (∀ base kvs, (∀ p ∈ kvs, p.2 = none) → query_params_builder base (some kvs) = base) ∧
    (∀ base k rest, query_params_builder base (some ((k, none) :: rest)) =
      query_params_builder base (some rest)) ∧
    (∀ base k v rest, query_params_builder base (some ((k, some v) :: rest)) =
      query_params_builder
        (base ++ (if base.contains '?' then "&" else "?") ++ k ++ "=" ++ v)
        (some rest)) := by
  refine ⟨fun base => rfl, ?_, fun base k rest => rfl, fun base k v rest => rfl⟩
  intro base kvs h
  induction kvs with
  | nil => rfl
  | cons p tl ih =>
    have hp : p.2 = none := h p (List.mem_cons_self _ _)
    have hstep : query_params_builder base (some (p :: tl)) =
        query_params_builder base (some tl) := by
      obtain ⟨k, v⟩ := p
      cases v with
      | none => rfl
      | some v => simp at hp
    rw [hstep]
    exact ih (fun q hq => h q (List.mem_cons_of_mem _ hq))

theorem query_params_builder_spec_witness :
    query_params_builder "/api/abstract/2020-1" (some [("query", none), ("starttime", none)])
      = "/api/abstract/2020-1" :=
  query_params_builder_spec.2.1 "/api/abstract/2020-1"
    [("query", none), ("starttime", none)] (by decide)

/-- C9: with a valid identity token whose user has no stored profile
document, get_user succeeds with body data = the empty object, rather than
a 404 or an error. -/
theorem get_user_missing_profile (ui : UserInfo) (uid : String)
    (hid : ui.user_id = some uid) (store : ProfStore)
    (habs : List.lookup uid store = none) :
    get_user (some ui) store none = .ok ⟨200, some (.obj [("data", .obj [])])⟩ := by
  simp [get_user, get_data, hid, habs]

theorem get_user_missing_profile_witness :
    get_user (some ⟨some "u", none⟩) [] none
      = .ok ⟨200, some (.obj [("data", .obj [])])⟩ :=
  get_user_missing_profile ⟨some "u", none⟩ "u" rfl [] rfl

/-- C1: liking submission X and then disliking it does not remove X: the
like succeeds, but the dislike evaluates Python list subtraction
(`current_pref - [submission_id]`) outside the try block and raises an
uncaught TypeError, leaving the stored preference set unchanged.  The claim
describes the evident intent (dislike removes); the code is the slip. -/
theorem update_user_votes_dislike_raises :
    update_user_votes "2020-1" "X" (some "like") (some ⟨some "u", none⟩)
      [("u", [("2020-1", ([] : List String))])] none none
      = .ok (⟨200, none⟩, [("u", [("2020-1", ["X"])])]) ∧
    update_user_votes "2020-1" "X" (some "dislike") (some ⟨some "u", none⟩)
      [("u", [("2020-1", ["X"])])] none none
      = .error .typeError := ⟨rfl, rfl⟩

/-- C2 counterexample: calculate_embeddings applied to an empty dataframe
with the default "lsa" option raises (the fit aborts on an empty table)
instead of returning an empty result. -/
theorem calculate_embeddings_empty_lsa_raises :
    calculate_embeddings (fun _ => []) (fun _ => []) [] "lsa"
      = .error .valueError := rfl

/-- C2 amended: calculate_embeddings with an option other than "lsa" or
"sent_embed" returns None without raising, for every dataframe, and the
caller must check the result; on an empty dataframe with option "lsa"
the run aborts with an exception. -/
theorem calculate_embeddings_amended :
    (∀ (encode lsa_fit : List String → List (List Int))
        (df : List (String × String × String)) (opt : String),
      opt ≠ "lsa" → opt ≠ "sent_embed" →
      calculate_embeddings encode lsa_fit df opt = .ok none) ∧
    (∀ (encode lsa_fit : List String → List (List Int)),
      calculate_embeddings encode lsa_fit [] "lsa" = .error .valueError) := by
  constructor
  · intro encode lsa_fit df opt h1 h2
    simp [calculate_embeddings, h1, h2]
  · intro encode lsa_fit
    rfl

theorem calculate_embeddings_amended_witness :
    calculate_embeddings (fun _ => []) (fun _ => []) [("s1", "t", "a")] "tfidf"
      = .ok none :=
  calculate_embeddings_amended.1 (fun _ => []) (fun _ => []) [("s1", "t", "a")]
    "tfidf" (by decide) (by decide)

/-- C10: the like action with an existing preference list for the edition
stores, for that edition, a list that contains the liked submission and
whose set of ids is the previous set united with the liked id; liking an
already-liked submission leaves the set unchanged. -/
theorem update_user_votes_like_set (edition sid uid : String) (ui : UserInfo)
    (hid : ui.user_id = some uid) (store : PrefStore) (doc : PrefDoc)
    (hdoc : List.lookup uid store = some doc) (cur : List String)
    (hcur : List.lookup edition doc = some cur) :
    ∃ store', update_user_votes edition sid (some "like") (some ui) store none none
        = .ok (⟨200, none⟩, store') ∧
      ∃ newPref, (List.lookup uid store').bind (fun d => List.lookup edition d)
          = some newPref ∧
        sid ∈ newPref ∧
        newPref.toFinset = cur.toFinset ∪ {sid} ∧
        (sid ∈ cur → newPref.toFinset = cur.toFinset) := by
  refine ⟨setKey store uid [(edition, (cur ++ [sid]).dedup)], ?_,
    (cur ++ [sid]).dedup, ?_, ?_, ?_, ?_⟩
  · simp [update_user_votes, get_data, hid, hdoc, hcur]
  · rw [lookup_setKey_self]
    simp [List.lookup]
  · exact List.mem_dedup.mpr (by simp)
  · ext a
    simp [List.mem_dedup, or_comm]
  · intro h
    ext a
    simp only [List.mem_toFinset, List.mem_dedup, List.mem_append,
      List.mem_singleton]
    constructor
    · rintro (ha | rfl)
      · exact ha
      · exact h
    · exact fun ha => Or.inl ha

theorem update_user_votes_like_set_witness :
    ∃ store', update_user_votes "e" "A" (some "like") (some ⟨some "u", none⟩)
        [("u", [("e", ["A", "B"])])] none none
        = .ok (⟨200, none⟩, store') ∧
      ∃ newPref, (List.lookup "u" store').bind (fun d => List.lookup "e" d)
          = some newPref ∧
        "A" ∈ newPref ∧
        newPref.toFinset = (["A", "B"] : List String).toFinset ∪ {"A"} ∧
        ("A" ∈ (["A", "B"] : List String) → newPref.toFinset = (["A", "B"] : List String).toFinset) :=
  update_user_votes_like_set "e" "A" "u" ⟨some "u", none⟩ rfl
    [("u", [("e", ["A", "B"])])] [("e", ["A", "B"])] rfl ["A", "B"] rfl

/-- C6: for a valid identity, get_user returns exactly the profile document
most recently stored for that identity: after create_user it reads back the
payload just written, and after update_user it reads back the document just
stored by the update. -/
theorem get_user_roundtrip (ui : UserInfo) (uid : String)
    (hid : ui.user_id = some uid) (store : ProfStore)
    (user_data : List (String × Json)) (p : Json)
    (hp : List.lookup "payload" user_data = some p)
    (upd : List (String × Json)) :
    (∃ s', create_user (some ui) user_data store none = .ok (⟨200, none⟩, s') ∧
      get_user (some ui) s' none = .ok ⟨200, some (.obj [("data", p)])⟩) ∧
    (∃ s', update_user (some ui) upd store none = .ok (⟨200, none⟩, s') ∧
      get_user (some ui) s' none = .ok ⟨200, some (.obj [("data", .obj upd)])⟩) := by
  constructor
  · refine ⟨setKey store uid p, ?_, ?_⟩
    · simp [create_user, hp, hid]
    · simp [get_user, get_data, hid, lookup_setKey_self]
  · refine ⟨setKey store uid (.obj upd), ?_, ?_⟩
    · simp [update_user, hid]
    · simp [get_user, get_data, hid, lookup_setKey_self]

theorem get_user_roundtrip_witness :
    (∃ s', create_user (some ⟨some "u", none⟩)
        [("payload", .obj [("name", .str "ada")])] [] none = .ok (⟨200, none⟩, s') ∧
      get_user (some ⟨some "u", none⟩) s' none
        = .ok ⟨200, some (.obj [("data", .obj [("name", .str "ada")])])⟩) ∧
    (∃ s', update_user (some ⟨some "u", none⟩) [("afil", .str "x")] [] none
        = .ok (⟨200, none⟩, s') ∧
      get_user (some ⟨some "u", none⟩) s' none
        = .ok ⟨200, some (.obj [("data", .obj [("afil", .str "x")])])⟩) :=
  get_user_roundtrip ⟨some "u", none⟩ "u" rfl []
    [("payload", .obj [("name", .str "ada")])] (.obj [("name", .str "ada")]) rfl
    [("afil", .str "x")]

/-- C5 counterexample: update_abstract mutates a document in the external
store yet extracts no identity from any credential: a request carrying no
identity is answered 200, not 401. -/
theorem update_abstract_no_auth :
    update_abstract (some "appXYZ") (some "submissions") "rec1" {} = ⟨200, none⟩ := rfl

/-- C5 amended: the identity-guarded handlers — get_user, create_user,
update_user, both get_user_votes variants, and update_user_votes — answer
401 whenever get_user_info yields no identity; update_abstract, by
contrast, extracts no identity and never answers 401. -/
theorem auth_guard_amended :
    (∀ store rres, get_user none store rres = .ok ⟨401, none⟩) ∧
    (∀ d store wres, create_user none d store wres = .ok (⟨401, none⟩, store)) ∧
    (∀ d store wres, update_user none d store wres = .ok (⟨401, none⟩, store)) ∧
    (∀ store rres fetchAll, get_user_votes_all none store rres fetchAll = .ok ⟨401, none⟩) ∧
    (∀ ed store rres fetchOne,
      get_user_votes_edition ed none store rres fetchOne = .ok ⟨401, none⟩) ∧
    (∀ ed sid act store rres wres,
      update_user_votes ed sid act none store rres wres = .ok (⟨401, none⟩, store)) ∧
    (∀ base tname sid sub, (update_abstract base tname sid sub).status ≠ 401) := by
  refine ⟨fun _ _ => rfl, fun _ _ _ => rfl, fun _ _ _ => rfl, fun _ _ _ => rfl,
    fun _ _ _ _ => rfl, fun _ _ _ _ _ _ => rfl, ?_⟩
  intro base tname sid sub
  cases base <;> simp only [update_abstract] <;> omega

theorem auth_guard_amended_witness :
    get_user none [] none = .ok ⟨401, none⟩ :=
  auth_guard_amended.1 [] none

/-- C4 amended: in update_user_votes the google-cloud NotFound and the
TypeError raised by the preference write are caught and converted to 404
while any other write exception propagates; the preference fetch at the top
of get_abstracts catches every exception and substitutes an empty
preference list; store exceptions elsewhere, such as the profile read in
get_user, propagate uncaught. -/
theorem exception_handling_amended :
    (∀ ed sid uid (ui : UserInfo), ui.user_id = some uid →
      ∀ (store : PrefStore) doc, List.lookup uid store = some doc →
      ∀ cur, List.lookup ed doc = some cur →
        update_user_votes ed sid (some "like") (some ui) store none (some .notFound)
          = .ok (⟨404, none⟩, store) ∧
        update_user_votes ed sid (some "like") (some ui) store none (some .typeError)
          = .ok (⟨404, none⟩, store) ∧
        ∀ n, update_user_votes ed sid (some "like") (some ui) store none (some (.other n))
          = .error (.other n)) ∧
    (∀ e userInfo prefStore, get_abstracts_preference userInfo prefStore (some e) = []) ∧
    (∀ e (ui : UserInfo) store, get_user (some ui) store (some e) = .error e) := by
  refine ⟨?_, ?_, ?_⟩
  · intro ed sid uid ui hid store doc hdoc cur hcur
    refine ⟨?_, ?_, fun n => ?_⟩ <;>
      simp [update_user_votes, get_data, hid, hdoc, hcur]
  · intro e userInfo prefStore
    cases userInfo <;> rfl
  · intro e ui store
    rfl

theorem exception_handling_amended_witness :
    update_user_votes "e" "A" (some "like") (some ⟨some "u", none⟩)
      [("u", [("e", ["B"])])] none (some .notFound)
      = .ok (⟨404, none⟩, [("u", [("e", ["B"])])]) :=
  (exception_handling_amended.1 "e" "A" "u" ⟨some "u", none⟩ rfl
    [("u", [("e", ["B"])])] [("e", ["B"])] rfl ["B"] rfl).1

/-- C4 counterexample: a store-client exception (google-cloud NotFound)
raised while fetching the user preference in get_abstracts — a handler
outside the voting-update path — is caught by the bare except and does not
propagate: the handler still answers 200. -/
theorem get_abstracts_swallows_store_exception :
    get_abstracts "2020-1" none "default" none none 0 40 (some ⟨some "u", none⟩)
      [] (some .notFound) [] (fun _ _ => true) (fun _ _ _ => true) id
      (fun _ => .null) [] []
      = .ok ⟨200, some (absBody (absMeta 1 1 40)
          (some (absLinks "2020-1"
            [("view", some "default"), ("query", none), ("starttime", none),
             ("endtime", none), ("skip", some "0"), ("limit", some "40")]
            [("view", some "default"), ("query", none), ("starttime", none),
             ("endtime", none), ("skip", some "40"), ("limit", some "40")]))
          [])⟩ := rfl

/-- C7 counterexample: the success path of create_user returns Python None —
a 200 response whose body is null, lacking any data field. -/
theorem create_user_success_null_body :
    create_user (some ⟨some "u1", none⟩) [("payload", .obj [("name", .str "amy")])] [] none
      = .ok (⟨200, none⟩, [("u1", .obj [("name", .str "amy")])]) := rfl

/-- C7 amended: every response carrying a JSON body wraps its payload under
a data field; but the mutation handlers (create_user, update_user,
update_user_votes, create_abstract, update_abstract, migration,
confirmation email) and all error-status responses return a null body with
no data field. -/
theorem response_envelope_amended :
    (∀ q n res, hasData (get_affiliations q n res) = true) ∧
    (∀ ed st ag, hasData (get_agenda ed st ag) = true) ∧
    (∀ ui store rres r, get_user (some ui) store rres = .ok r → hasData r = true) ∧
    (∀ store rres, get_user none store rres = .ok ⟨401, none⟩) ∧
    (∀ ui d store r s', create_user (some ui) d store none = .ok (r, s') →
      r.body = none) ∧
    (∀ ui d store r s', update_user (some ui) d store none = .ok (r, s') →
      r.body = none) ∧
    (∀ ui store rres fetchAll r, get_user_votes_all (some ui) store rres fetchAll
      = .ok r → hasData r = true) ∧
    (∀ ed ui store rres fetchOne r,
      get_user_votes_edition ed (some ui) store rres fetchOne = .ok r →
      hasData r = true) ∧
    (∀ ed sid act userInfo store rres wres r s',
      update_user_votes ed sid act userInfo store rres wres = .ok (r, s') →
      r.body = none) ∧
    (∀ edition q view starttime endtime skip limit userInfo prefStore rres index
        queryHit timeHit convert fetchOne recs persRecs r,
      get_abstracts edition q view starttime endtime skip limit userInfo prefStore
        rres index queryHit timeHit convert fetchOne recs persRecs = .ok r →
      hasData r = true) ∧
    (∀ base tname sid esF atR, hasData (get_abstract_single base tname sid esF atR)
      = true) ∧
    (∀ userInfo base tname sub newId prof cdt r s',
      create_abstract userInfo base tname sub newId prof cdt = .ok (r, s') →
      r.body = none) ∧
    (∀ base tname sid sub, (update_abstract base tname sid sub).body = none) ∧
    (migrate.body = none) ∧
    (∀ sg userInfo sgs r, send_confirmation_email sg userInfo sgs = .ok r →
      r.body = none) := by
  refine ⟨?_, ?_, ?_, ?_, ?_, ?_, ?_, ?_, ?_, ?_, ?_, ?_, ?_, ?_, ?_⟩
  · intro q n res; cases q <;> rfl
  · intro ed st ag; cases st <;> rfl
  · intro ui store rres r h
    unfold get_user get_data at h
    repeat' split at h
    all_goals first
      | exact Except.noConfusion h
      | (injection h with h; subst h; rfl)
      | simp_all
  · intro store rres; rfl
  · intro ui d store r s' h
    unfold create_user at h
    repeat' split at h
    all_goals first
      | exact Except.noConfusion h
      | (injection h with h; injection h with h1 h2; subst h1; rfl)
      | simp_all
  · intro ui d store r s' h
    unfold update_user at h
    repeat' split at h
    all_goals first
      | exact Except.noConfusion h
      | (injection h with h; injection h with h1 h2; subst h1; rfl)
      | simp_all
  · intro ui store rres fetchAll r h
    unfold get_user_votes_all get_data at h
    repeat' split at h
    all_goals first
      | exact Except.noConfusion h
      | (injection h with h; subst h; rfl)
      | simp_all
  · intro ed ui store rres fetchOne r h
    unfold get_user_votes_edition get_data at h
    repeat' split at h
    all_goals first
      | exact Except.noConfusion h
      | (injection h with h; subst h; rfl)
      | simp_all
  · intro ed sid act userInfo store rres wres r s' h
    unfold update_user_votes get_data at h
    repeat' split at h
    all_goals first
      | exact Except.noConfusion h
      | (injection h with h; injection h with h1 h2; subst h1; rfl)
      | simp_all
  · intro edition q view starttime endtime skip limit userInfo prefStore rres
      index queryHit timeHit convert fetchOne recs persRecs r h
    unfold get_abstracts at h
    split at h
    · exact Except.noConfusion h
    · injection h with h
      subst h
      exact hasData_absBody _ _ _
  · intro base tname sid esF atR
    cases base <;> cases esF <;> rfl
  · intro userInfo base tname sub newId prof cdt r s' h
    unfold create_abstract at h
    repeat' split at h
    all_goals first
      | exact Except.noConfusion h
      | (injection h with h; injection h with h1 h2; subst h1; rfl)
      | simp_all
  · intro base tname sid sub; cases base <;> rfl
  · rfl
  · intro sg userInfo sgs r h
    unfold send_confirmation_email at h
    repeat' split at h
    all_goals first
      | exact Except.noConfusion h
      | (injection h with h; subst h; rfl)
      | simp_all

theorem response_envelope_amended_witness :
    hasData (get_affiliations (some "mit") none [.str "MIT"]) = true :=
  response_envelope_amended.1 (some "mit") none [.str "MIT"]

/-- C3 counterexample: the claim fails as stated.  With one submission in
the index, a stored preference document whose literal "edition" key lists
two ids, view "your-votes", skip = 1 and limit = 1, skip is at least the
edition's total submission count (1 ≤ 1) and yet the your-votes branch
slices the two fetched submissions and returns a nonempty data array: the
early pagination return compares pages, not counts, and the sliced list is
the preference fetch, which the index count does not bound. -/
theorem get_abstracts_pagination_counterexample :
    ([Json.null] : List Json).length ≤ 1 ∧
    respData (get_abstracts "2020-1" none "your-votes" none none 1 1
      (some ⟨some "u", none⟩) [("u", [("edition", ["a", "b"])])] none
      [.null] (fun _ _ => true) (fun _ _ _ => true) id (fun _ => .null) [] [])
      = some (.arr [.null]) :=
  ⟨by decide, rfl⟩

/-- C3 amended: for every get_abstracts request with positive limit, the
reported meta.currentPage equals floor(skip/limit)+1; and whenever skip is
at least the edition's total submission count, the data field of the
response is the empty array, provided the vote/recommendation views fetch
at most as many submissions as the index holds (as when the stored ids
point into the edition index) — in particular always in the default,
unrecognized-view and early-return branches. -/
theorem get_abstracts_pagination
    (edition : String) (q : Option String) (view : String)
    (starttime endtime : Option String) (skip limit : Nat)
    (userInfo : Option UserInfo) (prefStore : PrefStore) (rres : Option Exc)
    (index : List Json)
    (queryHit : Option String → Json → Bool)
    (timeHit : Option String → Option String → Json → Bool)
    (convert : String → String) (fetchOne : String → Json)
    (recs persRecs : List Json)
    (hlim : 0 < limit)
    (hpref : (get_abstracts_preference userInfo prefStore rres).length ≤ index.length)
    (hrecs : recs.length ≤ index.length)
    (hpers : persRecs.length ≤ index.length) :
    respCurrentPage (get_abstracts edition q view starttime endtime skip limit
        userInfo prefStore rres index queryHit timeHit convert fetchOne recs persRecs)
      = some (.num ((skip / limit + 1 : Nat) : Int)) ∧
    (index.length ≤ skip →
      respData (get_abstracts edition q view starttime endtime skip limit
          userInfo prefStore rres index queryHit timeHit convert fetchOne recs persRecs)
        = some (.arr [])) := by
  have h0 : ¬ limit = 0 := Nat.pos_iff_ne_zero.mp hlim
  constructor
  · simp only [get_abstracts, h0, if_false, respCurrentPage]
    repeat' split
    all_goals simp
  · intro hskip
    simp only [get_abstracts, h0, if_false, respData, Option.bind,
      jLookup_absBody_data]
    repeat' split
    all_goals first
      | rfl
      | (rw [List.drop_eq_nil_of_le (le_trans (le_trans (List.length_filter_le _ _)
          (List.length_filter_le _ _)) hskip), List.take_nil])
      | (rw [List.drop_eq_nil_of_le (show (List.map fetchOne
            (get_abstracts_preference userInfo prefStore rres)).length ≤ skip by
          rw [List.length_map]; exact le_trans hpref hskip), List.take_nil])
      | (rw [List.drop_eq_nil_of_le (le_trans (le_trans (List.length_filter_le _ _)
          hrecs) hskip), List.take_nil])
      | (rw [List.drop_eq_nil_of_le (le_trans (le_trans (List.length_filter_le _ _)
          hpers) hskip), List.take_nil])

theorem get_abstracts_pagination_witness :
    respCurrentPage (get_abstracts "2020-1" none "default" none none 0 40 none []
      none [] (fun _ _ => true) (fun _ _ _ => true) id (fun _ => .null) [] [])
      = some (.num 1) ∧
    respData (get_abstracts "2020-1" none "default" none none 0 40 none []
      none [] (fun _ _ => true) (fun _ _ _ => true) id (fun _ => .null) [] [])
      = some (.arr []) := by
  have h := get_abstracts_pagination "2020-1" none "default" none none 0 40 none
    [] none [] (fun _ _ => true) (fun _ _ _ => true) id (fun _ => .null) [] []
    (by decide) (by decide) (by decide) (by decide)
  exact ⟨h.1, h.2 (by decide)⟩
